import Mathlib

/-!
Verification of the EdAgent workflow controller (edagent/nodes.py, graph.py,
mcp_tools.py, state.py) against its natural-language specification.

The Python code is shallowly embedded: the language-model invocation and the
external MCP tool service are treated as oracles (`ModelStep` traces and a
`ToolCall → ToolOutcome` function), while all control flow of the router, the
per-phase agentic loops, the phase tool allow-lists and the graph wiring is
translated directly from the source.
-/

namespace EdAgent

/-- Python JSON-compatible values, as they appear in tool-call argument
mappings (`tool_call["args"]`). -/
inductive PyVal where
  | none
  | str (s : String)
  | int (n : Int)
  | bool (b : Bool)
deriving DecidableEq, Repr

/-- One tool call issued by the model: `{"name": ..., "args": ..., "id": ...}`. -/
structure ToolCall where
  name : String
  args : List (String × PyVal)
  id : String
deriving DecidableEq, Repr

/-- LangChain message kinds used by the controller. -/
inductive Message where
  | system (content : String)
  | human (content : String)
  | ai (content : String) (tool_calls : List ToolCall)
  | tool (content : String) (tool_call_id : String) (name : String)
deriving DecidableEq, Repr

/-- `message.content` accessor. -/
def Message.content : Message → String
  | .system c => c
  | .human c => c
  | .ai c _ => c
  | .tool c _ _ => c

/-- The `AgentState` TypedDict from state.py, with `messages` as the plain
conversation list (the `add_messages` reducer is external). -/
structure AgentState where
  messages : List Message := []
  next_step : String := ""
  job_id : Option String := Option.none
  current_phase : Option String := Option.none
  rubric_text : Option String := Option.none
  question_text : Option String := Option.none
  knowledge_base_topic : Option String := Option.none
  context_material : Option String := Option.none
  materials_added_to_kb : Bool := false
  ocr_complete : Bool := false
  scrubbing_complete : Bool := false
  evaluation_complete : Bool := false
  clean_directory_path : Option String := Option.none
  student_count : Option Int := Option.none
  essay_format : Option String := Option.none
deriving DecidableEq, Repr

/-- A state fragment returned by a node: a Python dict holding a subset of the
state keys.  An outer `Option.none` means the key is absent from the dict; in
particular `job_id = Option.some Option.none` models the dict entry
`"job_id": None`. -/
structure Fragment where
  next_step : Option String := Option.none
  current_phase : Option (Option String) := Option.none
  job_id : Option (Option String) := Option.none
  ocr_complete : Option Bool := Option.none
  validation_complete : Option Bool := Option.none
  scrubbing_complete : Option Bool := Option.none
  evaluation_complete : Option Bool := Option.none
  clean_directory_path : Option (Option String) := Option.none
  student_count : Option Int := Option.none
  context_material : Option String := Option.none
  messages : List Message := []
deriving DecidableEq, Repr

/-- Python `s.lower()` (written on the character list so that it reduces in
the kernel). -/
def pyLower (s : String) : String := ⟨s.data.map Char.toLower⟩

/-- Python `needle in hay` on strings: substring containment. -/
def pyIn (needle hay : String) : Bool := decide (needle.toList <:+: hay.toList)

/-- Python truthiness of an optional string (`if job_id:`): `None` and the
empty string are falsy. -/
def pyTruthyOptStr : Option String → Bool
  | Option.none => false
  | Option.some s => !(s == "")

/-- Association-list lookup modelling a Python string-keyed dict. -/
def lookupStr (k : String) (l : List (String × String)) : Option String :=
  (l.find? (fun kv => kv.1 == k)).map (fun kv => kv.2)

/-- Python `state["messages"][-1].content if state["messages"] else ""`. -/
def lastContent (ms : List Message) : String :=
  match ms.getLast? with
  | Option.none => ""
  | Option.some m => m.content

/-! ## Router (nodes.py, `router_node`) -/

/-- `negative_keywords` from `router_node`. -/
def negative_keywords : List String :=
  ["no", "don\x27t", "dont", "skip", "not", "nope", "nah", "decline", "cancel"]

/-- `email_keywords` from `router_node`. -/
def email_keywords : List String := ["email", "send", "distribute", "mail"]

/-- `positive_keywords` from `router_node`. -/
def positive_keywords : List String := ["yes", "yeah", "yep", "sure", "ok", "okay"]

/-- The `should_email` computation of `router_node`:
`(has_positive or has_email_keyword) and not has_negative` over the lowercased
last message. -/
def shouldEmail (last_message : String) : Bool :=
  let has_negative := negative_keywords.any (fun neg => pyIn neg last_message)
  let has_email_keyword := email_keywords.any (fun k => pyIn k last_message)
  let has_positive := positive_keywords.any (fun k => pyIn k last_message)
  (has_positive || has_email_keyword) && !has_negative

/-- The `phase_routing` dict of `router_node`. -/
def phase_routing : List (String × String) :=
  [("gather", "gather_materials"),
   ("prepare", "prepare_essays"),
   ("validate", "validate_student_names"),
   ("scrub", "scrub_pii"),
   ("inspect", "inspect_and_scrub"),
   ("evaluate", "evaluate_essays"),
   ("report", "generate_reports")]

/-- The `routing_messages` dict of `router_node`. -/
def routing_messages : List (String × String) :=
  [("gather_materials", "I\x27d be happy to help you grade those essays!"),
   ("test_grading", "I\x27ll help you grade those tests!"),
   ("general", "I\x27m here to help with your question."),
   ("email_distribution", "Great! Let me help you distribute these via email.")]

/-- Result of one router invocation: the returned state fragment, plus the
observation of whether the structured-output model classification was
invoked. -/
structure RouterResult where
  fragment : Fragment
  model_called : Bool
deriving DecidableEq, Repr

/-- Shallow embedding of `router_node`.  The structured-output intent
classification is a black box; its returned `next_step` label is the
`classify` parameter (only consulted on the fall-through branch). -/
def router_node (classify : String) (state : AgentState) : RouterResult :=
  let job_id := state.job_id
  let current_phase := state.current_phase
  let last_message := pyLower (lastContent state.messages)
  if pyTruthyOptStr job_id && (current_phase == Option.some "report")
      && shouldEmail last_message then
    { fragment :=
        { next_step := Option.some "email_distribution",
          job_id := Option.some job_id,
          messages :=
            [.ai ("Great! Let me help you distribute these via email. (Using job_id: "
              ++ job_id.getD "" ++ ")") []] },
      model_called := false }
  else
    let phaseResume : Option String :=
      match current_phase with
      | Option.none => Option.none
      | Option.some p => if p == "" then Option.none else lookupStr p phase_routing
    match phaseResume with
    | Option.some next_node =>
      { fragment := { next_step := Option.some next_node, messages := [] },
        model_called := false }
    | Option.none =>
      { fragment :=
          { next_step := Option.some classify,
            messages :=
              [.ai ((lookupStr classify routing_messages).getD
                "Let me help you with that.") []] },
        model_called := true }

/-- `route_decision` from nodes.py: returns `state.get("next_step", "END")`;
the key is always present in the embedded state record. -/
def route_decision (state : AgentState) : String := state.next_step

/-! ## Workflow graph (graph.py, `create_graph`) -/

/-- The node names registered by `create_graph` via `workflow.add_node`. -/
def graph_nodes : List String :=
  ["router", "essay_grading", "test_grading", "general", "email_distribution"]

/-- The conditional-edge map out of `"router"` in `create_graph`. -/
def router_edge_map : List (String × String) :=
  [("essay_grading", "essay_grading"),
   ("test_grading", "test_grading"),
   ("general", "general")]

/-- The conditional-edge map out of `"essay_grading"` and `"test_grading"`. -/
def grading_edge_map : List (String × String) :=
  [("email_distribution", "email_distribution"),
   ("END", "END")]

/-- The names graph.py imports from edagent.nodes. -/
def graph_imports_from_nodes : List String :=
  ["router_node", "essay_grading_node", "test_grading_node", "general_node",
   "email_distribution_node", "route_decision"]

/-- The top-level functions actually defined in nodes.py. -/
def nodes_defined_functions : List String :=
  ["get_llm", "router_node", "gather_materials_node", "prepare_essays_node",
   "inspect_and_scrub_node", "validate_student_names_node", "scrub_pii_node",
   "evaluate_essays_node", "generate_reports_node", "test_grading_node",
   "email_distribution_node", "curriculum_node", "general_node",
   "route_decision"]

/-- The closed label set of the router's structured output (`RouterDecision`). -/
def router_labels : List String :=
  ["gather_materials", "test_grading", "general", "email_distribution"]

/-! ## Tool allow-lists (mcp_tools.py) -/

/-- The `phase_tool_map` of `get_phase_tools`. -/
def phase_tool_map : List (String × List String) :=
  [("gather",
    ["create_job_with_materials", "add_to_knowledge_base",
     "convert_pdf_to_text", "read_text_file"]),
   ("prepare", ["batch_process_documents"]),
   ("validate",
    ["get_job_statistics", "validate_student_names", "correct_detected_name"]),
   ("scrub", ["get_job_statistics", "scrub_processed_job"]),
   ("inspect",
    ["get_job_statistics", "validate_student_names", "correct_detected_name",
     "scrub_processed_job"]),
   ("evaluate", ["query_knowledge_base", "evaluate_job"]),
   ("report",
    ["generate_gradebook", "generate_student_feedback",
     "download_reports_locally"])]

/-- The keyword filter shared by `get_phase_tools`, `get_grading_tools` and
`get_email_tools`: keep a tool when some keyword is a substring of its
lowercased name. -/
def keywordFilter (keywords : List String) (serverTools : List String) :
    List String :=
  serverTools.filter (fun n => keywords.any (fun keyword => pyIn keyword (pyLower n)))

/-- `get_phase_tools(phase)` applied to the name list the MCP server reports.
For an unknown phase Python raises `ValueError`; the embedded nodes only call
it with the literal phase names of `phase_tool_map`, so that branch is
modelled as the empty allow-list. -/
def get_phase_tools (phase : String) (serverTools : List String) : List String :=
  match (phase_tool_map.find? (fun kv => kv.1 == phase)) with
  | Option.some kv => keywordFilter kv.2 serverTools
  | Option.none => []

/-- `grading_keywords` from `get_grading_tools`. -/
def grading_keywords : List String :=
  ["create_job", "batch_process", "extract_text", "read_text",
   "get_job_statistics", "scrub_processed_job", "normalize_processed_job",
   "evaluate_job", "generate_gradebook", "generate_student_feedback",
   "download_reports", "add_to_knowledge_base", "query_knowledge_base",
   "search_past_jobs", "export_job_archive", "convert_pdf_to_text",
   "convert_image_to_pdf", "batch_convert", "merge_images"]

/-- `get_grading_tools` applied to the server's tool-name list. -/
def get_grading_tools (serverTools : List String) : List String :=
  keywordFilter grading_keywords serverTools

/-- `email_keywords` from `get_email_tools` (tool names, distinct from the
router's message keywords). -/
def email_tool_keywords : List String :=
  ["identify_email_problems", "verify_student_name_correction",
   "apply_student_name_correction", "skip_student_email",
   "send_student_feedback_emails", "get_email_log"]

/-- `get_email_tools` applied to the server's tool-name list. -/
def get_email_tools (serverTools : List String) : List String :=
  keywordFilter email_tool_keywords serverTools

/-! ## The generic agentic loop shared by the phase agents

Every phase node runs the same `while iteration < max_iterations` loop:
invoke the model; stop if the response carries no tool calls; otherwise
execute each call in order through the tool invoker, appending a
`ToolMessage` per call, and iterate.  The model is an oracle mapping the
index of the invocation to its response (or to a raised exception), and tool
execution is an oracle from the (possibly adjusted) call to its outcome. -/

/-- One model invocation: a reply `(content, tool_calls)`, or an exception
raised by `llm.ainvoke` itself. -/
inductive ModelStep where
  | reply (content : String) (tool_calls : List ToolCall)
  | raise (msg : String)
deriving DecidableEq, Repr

/-- Outcome of executing one matched tool: its textual result, or an
exception raised by `matching_tool.ainvoke`. -/
inductive ToolOutcome where
  | ok (result : String)
  | raise (msg : String)
deriving DecidableEq, Repr

/-- In-loop state: the messages appended so far by the loop, plus the log of
successfully executed tool calls together with their textual results (the
log drives the closure-captured side-channel dicts of each node). -/
structure LoopState where
  msgs : List Message := []
  log : List (ToolCall × String) := []
deriving DecidableEq, Repr

/-- The tool-invoker step for one requested call (nodes.py, the
`matching_tool = next(...)` / `try` / `except` / `Tool ... not found` block).
`adjust` is applied to the raw call before matching and execution; it is the
identity everywhere except the email node's job_id injection. -/
def execOne (tools : List String) (exec : ToolCall → ToolOutcome)
    (adjust : ToolCall → ToolCall) (st : LoopState) (tc0 : ToolCall) :
    LoopState :=
  let tc := adjust tc0
  if tools.contains tc.name then
    match exec tc with
    | .ok result =>
      { msgs := st.msgs ++ [.tool result tc.id tc.name],
        log := st.log ++ [(tc, result)] }
    | .raise m =>
      { msgs := st.msgs
          ++ [.tool ("Error executing " ++ tc.name ++ ": " ++ m) tc.id tc.name],
        log := st.log }
  else
    { msgs := st.msgs
        ++ [.tool ("Tool " ++ tc.name ++ " not found") tc.id tc.name],
      log := st.log }

/-- Result of a full loop run: messages appended, executed-call log, number of
model invocations performed, and—when `llm.ainvoke` raised—the exception
(which propagates out of the loop). -/
structure LoopResult where
  msgs : List Message
  log : List (ToolCall × String)
  model_calls : Nat
  error : Option String
deriving DecidableEq, Repr

/-- The bounded agentic loop (`while iteration < max_iterations`), with the
iteration budget as the `Nat` fuel.  `i` indexes model invocations into the
oracle. -/
def runLoop (tools : List String) (exec : ToolCall → ToolOutcome)
    (adjust : ToolCall → ToolCall) (model : Nat → ModelStep) :
    Nat → LoopState → Nat → LoopResult
  | _, st, 0 => ⟨st.msgs, st.log, 0, Option.none⟩
  | i, st, b + 1 =>
    match model i with
    | .raise e => ⟨st.msgs, st.log, 1, Option.some e⟩
    | .reply content tcs =>
      let st1 : LoopState := ⟨st.msgs ++ [.ai content tcs], st.log⟩
      if tcs.isEmpty then ⟨st1.msgs, st1.log, 1, Option.none⟩
      else
        let st2 := tcs.foldl (execOne tools exec adjust) st1
        let r := runLoop tools exec adjust model (i + 1) st2 b
        ⟨r.msgs, r.log, r.model_calls + 1, r.error⟩

/-! ## Iteration budgets (the `max_iterations` constants of nodes.py) -/

/-- `max_iterations` in `gather_materials_node`. -/
def gather_max_iterations : Nat := 10

/-- `max_iterations` in `prepare_essays_node`. -/
def prepare_max_iterations : Nat := 10

/-- `max_iterations` in `inspect_and_scrub_node`. -/
def inspect_max_iterations : Nat := 20

/-- `max_iterations` in `validate_student_names_node`. -/
def validate_max_iterations : Nat := 20

/-- `max_iterations` in `scrub_pii_node`. -/
def scrub_max_iterations : Nat := 5

/-- `max_iterations` in `evaluate_essays_node`. -/
def evaluate_max_iterations : Nat := 10

/-- `max_iterations` in `generate_reports_node`. -/
def report_max_iterations : Nat := 10

/-- `max_iterations` in `test_grading_node`. -/
def test_grading_max_iterations : Nat := 10

/-- `max_iterations` in `email_distribution_node`. -/
def email_max_iterations : Nat := 30

/-! ## Tool-call argument helpers -/

/-- Lookup of `tool_args[k]` in the string-keyed argument dict. -/
def lookupArg (args : List (String × PyVal)) (k : String) : Option PyVal :=
  (args.find? (fun kv => kv.1 == k)).map (fun kv => kv.2)

/-- Python dict assignment `tool_args[k] = v`: replace the entry if the key is
present, append it otherwise. -/
def setArg (args : List (String × PyVal)) (k : String) (v : PyVal) :
    List (String × PyVal) :=
  match args with
  | [] => [(k, v)]
  | kv :: rest => if kv.1 == k then (k, v) :: rest else kv :: setArg rest k v

/-- A string-typed argument, as pydantic validation guarantees for the typed
completion-signal closures (`job_id: str`, etc.). -/
def getStrArg (tc : ToolCall) (k : String) : Option String :=
  match lookupArg tc.args k with
  | Option.some (PyVal.str s) => Option.some s
  | _ => Option.none

/-- A bool-typed argument of a completion-signal closure. -/
def getBoolArg (tc : ToolCall) (k : String) : Option Bool :=
  match lookupArg tc.args k with
  | Option.some (PyVal.bool b) => Option.some b
  | _ => Option.none

/-- An optional string of the state rendered as a Python value
(`state.get("job_id")` is `None` or a `str`). -/
def optToPy : Option String → PyVal
  | Option.none => PyVal.none
  | Option.some s => PyVal.str s

/-! ## Node results

Each node invocation is observed as the returned state fragment plus the
number of model invocations performed and the log of tool calls actually
executed during the turn; nodes without a `try`/`except` wrapper propagate a
model-invocation exception as `Except.error`. -/

/-- Observation of one phase-node invocation. -/
structure NodeResult where
  fragment : Fragment
  model_calls : Nat
  executed : List (ToolCall × String)
deriving DecidableEq, Repr

/-! ## Phase nodes (nodes.py)

Python returns the message delta `messages[len(state["messages"]):]`; in the
loop branches we model the fragment's `messages` as the messages appended by
the loop (the Python slice additionally re-sends the last prior message,
which the `add_messages` reducer deduplicates by id; no claim depends on
that boundary). -/

/-- The side-channel dict `preparation_state` of `prepare_essays_node`
(closure writes of `complete_preparation`, plus the `students_detected`
capture from `batch_process_documents` results). -/
structure PreparationState where
  clean_directory_path : Option String := Option.none
  ocr_complete : Bool := false
  student_count : Option Int := Option.none
deriving DecidableEq, Repr

/-- Replays one executed call against `preparation_state`.  `parseStudents`
abstracts the `json.loads(result)` / `status == "success"` /
`"students_detected" in result_dict` extraction. -/
def prepFold (parseStudents : String → Option Int) (ps : PreparationState)
    (e : ToolCall × String) : PreparationState :=
  if e.1.name == "batch_process_documents" then
    match parseStudents e.2 with
    | Option.some n => { ps with student_count := Option.some n }
    | Option.none => ps
  else if e.1.name == "complete_preparation" then
    match getStrArg e.1 "clean_directory_path" with
    | Option.some p =>
      { clean_directory_path := Option.some p, ocr_complete := true,
        student_count := ps.student_count }
    | Option.none => ps
  else ps

/-- The tool list bound in `prepare_essays_node`: the phase allow-list plus
the local `prepare_files_for_grading` helper and the `complete_preparation`
completion-signal closure. -/
def prepareTools (serverTools : List String) : List String :=
  get_phase_tools "prepare" serverTools
    ++ ["prepare_files_for_grading", "complete_preparation"]

/-- Shallow embedding of `prepare_essays_node`.  The whole body is wrapped in
`try`/`except`, so a model-invocation exception is caught and converted into
an error fragment. -/
def prepare_essays_node (serverTools : List String)
    (exec : ToolCall → ToolOutcome) (parseStudents : String → Option Int)
    (model : Nat → ModelStep) (state : AgentState) :
    Except String NodeResult :=
  if state.ocr_complete then
    .ok ⟨{ next_step := Option.some "validate_student_names",
           current_phase := Option.some (Option.some "validate"),
           messages := [] }, 0, []⟩
  else
    let tools := prepareTools serverTools
    let r := runLoop tools exec id model 0 {} prepare_max_iterations
    match r.error with
    | Option.some e =>
      .ok ⟨{ next_step := Option.some "END",
             messages := [.ai ("I encountered an error in the prepare phase: "
               ++ e ++ "\n\nPlease check the logs for more details.") []] },
           r.model_calls, r.log⟩
    | Option.none =>
      let ps := r.log.foldl (prepFold parseStudents) {}
      if ps.ocr_complete then
        .ok ⟨{ current_phase := Option.some (Option.some "validate"),
               next_step := Option.some "validate_student_names",
               clean_directory_path := Option.some ps.clean_directory_path,
               ocr_complete := Option.some true,
               student_count := ps.student_count,
               messages := r.msgs }, r.model_calls, r.log⟩
      else
        .ok ⟨{ next_step := Option.some "END",
               current_phase := Option.some (Option.some "prepare"),
               messages := r.msgs }, r.model_calls, r.log⟩

/-- Replays the `complete_validation` closure writes: the final value of
`validation_state["validation_complete"]`. -/
def valFold (b : Bool) (e : ToolCall × String) : Bool :=
  if e.1.name == "complete_validation" then
    (getBoolArg e.1 "validation_complete").getD b
  else b

/-- Shallow embedding of `validate_student_names_node` (body wrapped in
`try`/`except`; no idempotency guard at entry). -/
def validate_student_names_node (serverTools : List String)
    (exec : ToolCall → ToolOutcome) (model : Nat → ModelStep)
    (state : AgentState) : Except String NodeResult :=
  let tools := get_phase_tools "validate" serverTools ++ ["complete_validation"]
  let r := runLoop tools exec id model 0 {} validate_max_iterations
  match r.error with
  | Option.some e =>
    .ok ⟨{ next_step := Option.some "END",
           messages := [.ai ("I encountered an error during name validation: "
             ++ e ++ "\n\nPlease check the logs for more details.") []] },
         r.model_calls, r.log⟩
  | Option.none =>
    let vc := r.log.foldl valFold false
    if vc then
      .ok ⟨{ current_phase := Option.some (Option.some "scrub"),
             next_step := Option.some "scrub_pii",
             validation_complete := Option.some vc,
             messages := r.msgs }, r.model_calls, r.log⟩
    else
      .ok ⟨{ next_step := Option.some "END",
             current_phase := Option.some (Option.some "validate"),
             messages := r.msgs }, r.model_calls, r.log⟩

/-- Replays the `complete_scrubbing` closure writes: the final value of
`scrubbing_state["scrubbing_complete"]`. -/
def scrubFold (b : Bool) (e : ToolCall × String) : Bool :=
  if e.1.name == "complete_scrubbing" then
    (getBoolArg e.1 "scrubbing_complete").getD b
  else b

/-- Shallow embedding of `scrub_pii_node` (body wrapped in `try`/`except`;
note there is no entry check of `state["scrubbing_complete"]`). -/
def scrub_pii_node (serverTools : List String)
    (exec : ToolCall → ToolOutcome) (model : Nat → ModelStep)
    (state : AgentState) : Except String NodeResult :=
  let tools := get_phase_tools "scrub" serverTools ++ ["complete_scrubbing"]
  let r := runLoop tools exec id model 0 {} scrub_max_iterations
  match r.error with
  | Option.some e =>
    .ok ⟨{ next_step := Option.some "END",
           messages := [.ai ("I encountered an error during PII scrubbing: "
             ++ e ++ "\n\nPlease check the logs for more details.") []] },
         r.model_calls, r.log⟩
  | Option.none =>
    let sc := r.log.foldl scrubFold false
    if sc then
      .ok ⟨{ current_phase := Option.some (Option.some "evaluate"),
             next_step := Option.some "evaluate_essays",
             scrubbing_complete := Option.some sc,
             messages := r.msgs }, r.model_calls, r.log⟩
    else
      .ok ⟨{ next_step := Option.some "END",
             current_phase := Option.some (Option.some "scrub"),
             messages := r.msgs }, r.model_calls, r.log⟩

/-- The side-channel dict `evaluation_state` of `evaluate_essays_node`. -/
structure EvaluationState where
  evaluation_complete : Bool := false
  context_material : String := ""
deriving DecidableEq, Repr

/-- Replays the `complete_evaluation` closure writes. -/
def evalFold (es : EvaluationState) (e : ToolCall × String) : EvaluationState :=
  if e.1.name == "complete_evaluation" then
    match getBoolArg e.1 "evaluation_complete", getStrArg e.1 "context_material" with
    | Option.some b, Option.some c =>
      { evaluation_complete := b, context_material := c }
    | _, _ => es
  else es

/-- Shallow embedding of `evaluate_essays_node`: idempotency guard on
`state["evaluation_complete"]`, then the loop, all inside `try`/`except`. -/
def evaluate_essays_node (serverTools : List String)
    (exec : ToolCall → ToolOutcome) (model : Nat → ModelStep)
    (state : AgentState) : Except String NodeResult :=
  if state.evaluation_complete then
    .ok ⟨{ next_step := Option.some "generate_reports",
           current_phase := Option.some (Option.some "report"),
           messages := [] }, 0, []⟩
  else
    let tools := get_phase_tools "evaluate" serverTools ++ ["complete_evaluation"]
    let r := runLoop tools exec id model 0 {} evaluate_max_iterations
    match r.error with
    | Option.some e =>
      .ok ⟨{ next_step := Option.some "END",
             messages := [.ai ("I encountered an error during evaluation: "
               ++ e ++ "\n\nPlease check the logs for more details.") []] },
           r.model_calls, r.log⟩
    | Option.none =>
      let es := r.log.foldl evalFold {}
      if es.evaluation_complete then
        .ok ⟨{ current_phase := Option.some (Option.some "report"),
               next_step := Option.some "generate_reports",
               evaluation_complete := Option.some es.evaluation_complete,
               context_material := Option.some es.context_material,
               messages := r.msgs }, r.model_calls, r.log⟩
      else
        .ok ⟨{ next_step := Option.some "END",
               current_phase := Option.some (Option.some "evaluate"),
               messages := r.msgs }, r.model_calls, r.log⟩

/-- The side-channel dict `routing_state` of `generate_reports_node`:
`{"next_step": None, "job_id": None, "workflow_complete": False}`. -/
structure ReportRoutingState where
  next_step : Option String := Option.none
  job_id : Option String := Option.none
  workflow_complete : Bool := false
deriving DecidableEq, Repr

/-- Replays the `complete_grading_workflow(job_id, route_to_email)` closure
writes of the report node. -/
def reportFold (rs : ReportRoutingState) (e : ToolCall × String) :
    ReportRoutingState :=
  if e.1.name == "complete_grading_workflow" then
    match getStrArg e.1 "job_id", getBoolArg e.1 "route_to_email" with
    | Option.some j, Option.some rt =>
      { job_id := Option.some j, workflow_complete := true,
        next_step := Option.some (if rt then "email_distribution" else "END") }
    | _, _ => rs
  else rs

/-- Final value of the report node's `routing_state` after a loop run. -/
def report_routing (log : List (ToolCall × String)) : ReportRoutingState :=
  log.foldl reportFold {}

/-- Shallow embedding of `generate_reports_node`.  The body has no
`try`/`except`, so a model-invocation exception propagates out of the node. -/
def generate_reports_node (serverTools : List String)
    (exec : ToolCall → ToolOutcome) (model : Nat → ModelStep)
    (state : AgentState) : Except String NodeResult :=
  let tools := get_phase_tools "report" serverTools ++ ["complete_grading_workflow"]
  let r := runLoop tools exec id model 0 {} report_max_iterations
  match r.error with
  | Option.some e => .error e
  | Option.none =>
    let rs := report_routing r.log
    if rs.workflow_complete then
      .ok ⟨{ next_step := rs.next_step,
             job_id := Option.some rs.job_id,
             messages := r.msgs }, r.model_calls, r.log⟩
    else
      .ok ⟨{ next_step := Option.some "generate_reports",
             messages := r.msgs }, r.model_calls, r.log⟩

/-- The side-channel dict `routing_state` of `test_grading_node`:
`{"next_step": "END", "job_id": None}` (no `workflow_complete` flag). -/
structure TestRoutingState where
  next_step : String := "END"
  job_id : Option String := Option.none
deriving DecidableEq, Repr

/-- Replays the `complete_grading_workflow` closure writes of the test node. -/
def testFold (rs : TestRoutingState) (e : ToolCall × String) :
    TestRoutingState :=
  if e.1.name == "complete_grading_workflow" then
    match getStrArg e.1 "job_id", getBoolArg e.1 "route_to_email" with
    | Option.some j, Option.some rt =>
      { job_id := Option.some j,
        next_step := if rt then "email_distribution" else "END" }
    | _, _ => rs
  else rs

/-- The tool list bound in `test_grading_node`: the grading allow-list plus
the local `read_file` helper and the `complete_grading_workflow` closure. -/
def testGradingTools (serverTools : List String) : List String :=
  get_grading_tools serverTools ++ ["read_file", "complete_grading_workflow"]

/-- Shallow embedding of `test_grading_node`.  No `try`/`except`; the return
always includes `next_step` and `job_id` taken from `routing_state`, so the
fragment carries `"job_id": None` whenever `complete_grading_workflow` was
not executed during the turn. -/
def test_grading_node (serverTools : List String)
    (exec : ToolCall → ToolOutcome) (model : Nat → ModelStep)
    (state : AgentState) : Except String NodeResult :=
  let tools := testGradingTools serverTools
  let r := runLoop tools exec id model 0 {} test_grading_max_iterations
  match r.error with
  | Option.some e => .error e
  | Option.none =>
    let rs := r.log.foldl testFold {}
    .ok ⟨{ next_step := Option.some rs.next_step,
           job_id := Option.some rs.job_id,
           messages := r.msgs }, r.model_calls, r.log⟩

/-- The email node's argument rewrite (nodes.py lines 2149-2157): inject the
state's `job_id` into the tool arguments when the model omitted it or passed
`None` or the empty string. -/
def injectJobId (state_job_id : Option String)
    (args : List (String × PyVal)) : List (String × PyVal) :=
  match lookupArg args "job_id" with
  | Option.some v =>
    if v == PyVal.none || v == PyVal.str "" then
      setArg args "job_id" (optToPy state_job_id)
    else args
  | Option.none => setArg args "job_id" (optToPy state_job_id)

/-- The per-call adjustment performed by `email_distribution_node` before
matching and invoking a tool. -/
def emailAdjust (state_job_id : Option String) (tc : ToolCall) : ToolCall :=
  { tc with args := injectJobId state_job_id tc.args }

/-- The short-circuit error text of `email_distribution_node` when no
`job_id` is in state. -/
def email_missing_job_text : String :=
  "⚠️ Error: No job_id was provided from the grading workflow. Please complete a grading task first before attempting to send emails."

/-- Shallow embedding of `email_distribution_node`: precondition guard on a
truthy `job_id`, then the loop (no `try`/`except`) with job_id injection on
every requested call. -/
def email_distribution_node (serverTools : List String)
    (exec : ToolCall → ToolOutcome) (model : Nat → ModelStep)
    (state : AgentState) : Except String NodeResult :=
  if !pyTruthyOptStr state.job_id then
    .ok ⟨{ next_step := Option.some "END",
           messages := [.ai email_missing_job_text []] }, 0, []⟩
  else
    let tools := get_email_tools serverTools
    let r := runLoop tools exec (emailAdjust state.job_id) model 0 {}
      email_max_iterations
    match r.error with
    | Option.some e => .error e
    | Option.none =>
      .ok ⟨{ next_step := Option.some "END", messages := r.msgs },
           r.model_calls, r.log⟩

/-! ## Observation helpers on node results -/

/-- The executed-call log of a node run (empty when an exception escaped). -/
def executedOf : Except String NodeResult → List (ToolCall × String)
  | .ok nr => nr.executed
  | .error _ => []

/-- A node run that ended by returning a state fragment rather than by
letting an exception escape the turn boundary. -/
def returnsFragment : Except String NodeResult → Prop
  | .ok _ => True
  | .error _ => False

/-- The fragment of a node run leaves the `job_id` channel untouched: the
returned dict has no `job_id` key at all. -/
def fragmentOmitsJobId : Except String NodeResult → Prop
  | .ok nr => nr.fragment.job_id = Option.none
  | .error _ => True

/-- The fragment of a node run never carries an explicit `"job_id": None`
entry. -/
def fragmentNeverNullsJobId : Except String NodeResult → Prop
  | .ok nr => nr.fragment.job_id ≠ Option.some Option.none
  | .error _ => True

/-! ## Helper lemmas about the loop -/

/-- Definitional unfolding of one loop iteration. -/
theorem runLoop_succ (tools : List String) (exec : ToolCall → ToolOutcome)
    (adjust : ToolCall → ToolCall) (model : Nat → ModelStep)
    (i : Nat) (st : LoopState) (b : Nat) :
    runLoop tools exec adjust model i st (b + 1)
      = match model i with
        | .raise e => ⟨st.msgs, st.log, 1, Option.some e⟩
        | .reply content tcs =>
          let st1 : LoopState := ⟨st.msgs ++ [.ai content tcs], st.log⟩
          if tcs.isEmpty then ⟨st1.msgs, st1.log, 1, Option.none⟩
          else
            let st2 := tcs.foldl (execOne tools exec adjust) st1
            let r := runLoop tools exec adjust model (i + 1) st2 b
            ⟨r.msgs, r.log, r.model_calls + 1, r.error⟩ := rfl

/-- The loop performs at most `b` model invocations when given fuel `b`. -/
theorem runLoop_model_calls_le (tools : List String)
    (exec : ToolCall → ToolOutcome) (adjust : ToolCall → ToolCall)
    (model : Nat → ModelStep) :
    ∀ (b i : Nat) (st : LoopState),
      (runLoop tools exec adjust model i st b).model_calls ≤ b := by
  intro b
  induction b with
  | zero => intro i st; exact Nat.le_refl 0
  | succ b ih =>
    intro i st
    rw [runLoop_succ]
    cases model i with
    | raise e => exact Nat.succ_le_succ (Nat.zero_le b)
    | reply content tcs =>
      by_cases he : tcs.isEmpty
      · simp only [he, if_true]
        exact Nat.succ_le_succ (Nat.zero_le b)
      · simp only [he, if_false]
        exact Nat.succ_le_succ (ih _ _)

/-- If the model oracle never raises, the loop never propagates an error:
tool failures and unknown tool names are absorbed, and budget exhaustion
ends the turn normally. -/
theorem runLoop_error_none (tools : List String)
    (exec : ToolCall → ToolOutcome) (adjust : ToolCall → ToolCall)
    (model : Nat → ModelStep)
    (hm : ∀ n m, model n ≠ ModelStep.raise m) :
    ∀ (b i : Nat) (st : LoopState),
      (runLoop tools exec adjust model i st b).error = Option.none := by
  intro b
  induction b with
  | zero => intro i st; rfl
  | succ b ih =>
    intro i st
    rw [runLoop_succ]
    cases hmi : model i with
    | raise e => exact absurd hmi (hm i e)
    | reply content tcs =>
      by_cases he : tcs.isEmpty
      · simp only [he, if_true]
      · simp only [he, if_false]
        exact ih _ _

/-- Every entry the tool invoker adds to the executed log is the adjusted
form of some requested call, and its name passed the allow-list test. -/
theorem execOne_log_mem (tools : List String) (exec : ToolCall → ToolOutcome)
    (adjust : ToolCall → ToolCall) (st : LoopState) (tc0 : ToolCall)
    (e : ToolCall × String)
    (he : e ∈ (execOne tools exec adjust st tc0).log) :
    e ∈ st.log
    ∨ (e.1 = adjust tc0 ∧ tools.contains (adjust tc0).name = true) := by
  unfold execOne at he
  by_cases hc : tools.contains (adjust tc0).name = true
  · rw [if_pos hc] at he
    cases hx : exec (adjust tc0) with
    | ok result =>
      rw [hx] at he
      rcases List.mem_append.mp he with h | h
      · exact Or.inl h
      · rcases List.mem_singleton.mp h with rfl
        exact Or.inr ⟨rfl, hc⟩
    | raise m =>
      rw [hx] at he
      exact Or.inl he
  · rw [if_neg hc] at he
    exact Or.inl he

/-- `execOne_log_mem` extended along a batch of calls. -/
theorem foldl_execOne_log_mem (tools : List String)
    (exec : ToolCall → ToolOutcome) (adjust : ToolCall → ToolCall) :
    ∀ (tcs : List ToolCall) (st : LoopState) (e : ToolCall × String),
      e ∈ (tcs.foldl (execOne tools exec adjust) st).log →
      e ∈ st.log
      ∨ ∃ tc0, e.1 = adjust tc0 ∧ tools.contains (adjust tc0).name = true := by
  intro tcs
  induction tcs with
  | nil => intro st e he; exact Or.inl he
  | cons hd tl ih =>
    intro st e he
    rcases ih _ _ he with h | h
    · rcases execOne_log_mem tools exec adjust st hd e h with h1 | h1
      · exact Or.inl h1
      · exact Or.inr ⟨hd, h1⟩
    · exact Or.inr h

/-- Every executed call logged by a loop run (started with an empty log) is
the adjusted form of a model-requested call whose name passed the
allow-list containment test. -/
theorem runLoop_log_mem (tools : List String) (exec : ToolCall → ToolOutcome)
    (adjust : ToolCall → ToolCall) (model : Nat → ModelStep) :
    ∀ (b i : Nat) (st : LoopState) (e : ToolCall × String),
      e ∈ (runLoop tools exec adjust model i st b).log →
      e ∈ st.log
      ∨ ∃ tc0, e.1 = adjust tc0 ∧ tools.contains (adjust tc0).name = true := by
  intro b
  induction b with
  | zero => intro i st e he; exact Or.inl he
  | succ b ih =>
    intro i st e he
    rw [runLoop_succ] at he
    cases hmi : model i with
    | raise m =>
      rw [hmi] at he
      exact Or.inl he
    | reply content tcs =>
      rw [hmi] at he
      by_cases he' : tcs.isEmpty
      · simp only [he', if_true] at he
        exact Or.inl he
      · simp only [he', if_false] at he
        rcases ih _ _ _ he with h | h
        · exact foldl_execOne_log_mem tools exec adjust tcs
            ⟨st.msgs ++ [Message.ai content tcs], st.log⟩ e h
        · exact Or.inr h

/-- Containment in a keyword-filtered tool list forces a keyword to be a
substring of the lowercased name. -/
theorem mem_keywordFilter (keywords : List String) (serverTools : List String)
    (n : String) (h : n ∈ keywordFilter keywords serverTools) :
    (keywords.any (fun keyword => pyIn keyword (pyLower n))) = true :=
  (List.mem_filter.mp h).2

/-- The literal `create_job_with_materials` never survives the prepare
phase's allow-list: the only keyword is `batch_process_documents`, which is
not a substring of it, and the two locally added tools have other names. -/
theorem create_job_not_in_prepareTools (serverTools : List String) :
    "create_job_with_materials" ∉ prepareTools serverTools := by
  intro h
  rcases List.mem_append.mp h with h1 | h1
  · have h2 := mem_keywordFilter _ serverTools _ h1
    exact absurd h2 (by decide)
  · exact absurd h1 (by decide)

/-- Boolean `contains` is false when the member is not in the list
(`String` has a lawful `BEq`). -/
theorem contains_eq_false_of_not_mem {l : List String} {a : String}
    (h : a ∉ l) : l.contains a = false := by
  cases hc : l.contains a
  · rfl
  · exact absurd (List.elem_iff.mp hc) h

/-! ## Helper lemmas about argument injection -/

/-- Looking up a key right after `setArg` yields the assigned value. -/
theorem lookupArg_setArg (args : List (String × PyVal)) (k : String)
    (v : PyVal) : lookupArg (setArg args k v) k = Option.some v := by
  induction args with
  | nil => simp [setArg, lookupArg]
  | cons hd tl ih =>
    by_cases h : hd.1 == k
    · simp [setArg, lookupArg, h]
    · simp only [setArg, h, Bool.false_eq_true, if_false]
      simp only [lookupArg, List.find?]
      rw [show (hd.1 == k) = false from by simpa using h]
      exact ih

/-- When the requested call omits `job_id` or passes it as `None` or `""`,
injection substitutes the state's value. -/
theorem injectJobId_missing (j : Option String)
    (args : List (String × PyVal))
    (h : lookupArg args "job_id" = Option.none
      ∨ lookupArg args "job_id" = Option.some PyVal.none
      ∨ lookupArg args "job_id" = Option.some (PyVal.str "")) :
    lookupArg (injectJobId j args) "job_id" = Option.some (optToPy j) := by
  unfold injectJobId
  rcases h with h | h | h <;> rw [h] <;> simp [lookupArg_setArg]

/-- After injection the argument dict always carries a `job_id` key. -/
theorem injectJobId_isSome (j : Option String)
    (args : List (String × PyVal)) :
    (lookupArg (injectJobId j args) "job_id").isSome = true := by
  unfold injectJobId
  cases h : lookupArg args "job_id" with
  | none => simp [lookupArg_setArg]
  | some v =>
    by_cases hv : (v == PyVal.none || v == PyVal.str "") = true
    · simp [hv, lookupArg_setArg]
    · simp only [hv, Bool.false_eq_true, if_false]
      rw [h]
      rfl

/-! ## Helper lemma about the report node's routing state -/

/-- Once `complete_grading_workflow` has flipped `workflow_complete`, the
captured `job_id` is a string. -/
theorem report_routing_complete_some (log : List (ToolCall × String))
    (hwc : (report_routing log).workflow_complete = true) :
    (report_routing log).job_id.isSome = true := by
  unfold report_routing at hwc ⊢
  suffices h : ∀ rs : ReportRoutingState,
      (rs.workflow_complete = true → rs.job_id.isSome = true) →
      ((log.foldl reportFold rs).workflow_complete = true →
        (log.foldl reportFold rs).job_id.isSome = true) by
    exact h {} (fun hc => absurd hc (by decide)) hwc
  clear hwc
  induction log with
  | nil => intro rs h; exact h
  | cons hd tl ih =>
    intro rs h
    refine ih (reportFold rs hd) ?_
    unfold reportFold
    by_cases hn : hd.1.name == "complete_grading_workflow"
    · simp only [hn, if_true]
      cases hs : getStrArg hd.1 "job_id" with
      | none => simpa [hs] using h
      | some jv =>
        cases hb : getBoolArg hd.1 "route_to_email" with
        | none => simpa [hs, hb] using h
        | some rt => intro _; rfl
    · simp only [hn, Bool.false_eq_true, if_false]
      exact h

/-! ## Claim C1 -/

/-- The empty-state first turn of the end-to-end scenario: the message
`I have essays to grade` with no prior state. -/
def c1_state : AgentState :=
  { messages := [.human "I have essays to grade"], next_step := "" }

/-- C1: the end-to-end scenario claims that the compiled graph executes the
phase agent for every routing value the Router can return.  In fact, while
the Router classifies the first message to `gather_materials` (and
`route_decision` then reports that value), `create_graph` registers no
`gather_materials` node, its conditional-edge map out of `router` has no
entry for `gather_materials` or `email_distribution`, and graph.py even
imports `essay_grading_node`, which nodes.py does not define — so the
scenario cannot execute as specified. -/
theorem C1_router_target_missing_from_graph :
    (router_node "gather_materials" c1_state).fragment.next_step
      = Option.some "gather_materials"
    ∧ route_decision { c1_state with next_step := "gather_materials" }
      = "gather_materials"
    ∧ "gather_materials" ∉ graph_nodes
    ∧ lookupStr "gather_materials" router_edge_map = Option.none
    ∧ lookupStr "email_distribution" router_edge_map = Option.none
    ∧ "essay_grading_node" ∈ graph_imports_from_nodes
    ∧ "essay_grading_node" ∉ nodes_defined_functions := by
  refine ⟨rfl, rfl, by decide, rfl, rfl, by decide, by decide⟩

/-! ## Claim C2 -/

/-- Turn State in the report phase with a pending job and a bare positive
answer as the incoming message. -/
def c2_state : AgentState :=
  { messages := [.human "yes"], job_id := Option.some "job_1",
    current_phase := Option.some "report" }

/-- C2 counterexample: `report` is a known phase (it maps to
`generate_reports` in `phase_routing`), yet with a job pending and the
positive message `yes` (no negation keyword) the Router routes to the
email-distribution agent rather than resuming the report phase. -/
theorem C2_counterexample_report_phase_email_override :
    c2_state.current_phase = Option.some "report"
    ∧ lookupStr "report" phase_routing = Option.some "generate_reports"
    ∧ (router_node "general" c2_state).fragment.next_step
      = Option.some "email_distribution"
    ∧ (router_node "general" c2_state).fragment.next_step
      ≠ Option.some "generate_reports" := by
  refine ⟨rfl, rfl, rfl, by decide⟩

/-- C2 amended: for every Turn State whose `current_phase` names a known
phase, the Router resumes that phase's agent without a fresh classification —
except when the phase is `report`, the job id is truthy and the message
matches the email-intent heuristic (in which case it routes to email
distribution instead). -/
theorem C2_amended_phase_resume (classify : String) (state : AgentState)
    (p next_node : String)
    (hp : state.current_phase = Option.some p)
    (hmap : lookupStr p phase_routing = Option.some next_node)
    (hne : p ≠ "report" ∨ pyTruthyOptStr state.job_id = false
      ∨ shouldEmail (pyLower (lastContent state.messages)) = false) :
    (router_node classify state).fragment.next_step = Option.some next_node
    ∧ (router_node classify state).model_called = false := by
  have hnc : ¬((pyTruthyOptStr state.job_id = true ∧ p = "report")
      ∧ shouldEmail (pyLower (lastContent state.messages)) = true) := by
    rcases hne with h | h | h
    · rintro ⟨⟨_, hpr⟩, _⟩
      exact h hpr
    · rintro ⟨⟨ht, _⟩, _⟩
      rw [h] at ht
      exact Bool.noConfusion ht
    · rintro ⟨_, hc⟩
      rw [h] at hc
      exact Bool.noConfusion hc
  have hpne : (p == "") = false := by
    cases hpe : (p == "")
    · rfl
    · exfalso
      have hpe' : p = "" := by simpa using hpe
      have hnone : lookupStr "" phase_routing = (Option.none : Option String) := rfl
      rw [hpe', hnone] at hmap
      exact Option.noConfusion hmap
  refine ⟨?_, ?_⟩ <;>
    · unfold router_node
      simp [hp, hpne, hmap, hnc]

/-- Turn State for the spec's own example: `current_phase="evaluate"`,
message `yes send it`. -/
def c2w_state : AgentState :=
  { messages := [.human "yes send it"], job_id := Option.some "job_1",
    current_phase := Option.some "evaluate" }

/-- C2 witness: with `current_phase="evaluate"` and the message
`yes send it`, the Router resumes the evaluate phase agent. -/
theorem C2_amended_phase_resume_witness :
    (router_node "general" c2w_state).fragment.next_step
      = Option.some "evaluate_essays"
    ∧ (router_node "general" c2w_state).model_called = false :=
  C2_amended_phase_resume "general" c2w_state "evaluate" "evaluate_essays"
    rfl rfl (Or.inl (by decide))

/-! ## Claim C3 -/

/-- Turn State with a non-null `job_id` routed to the test-grading agent. -/
def c3_state : AgentState :=
  { messages := [.human "can you grade more tests"],
    job_id := Option.some "job_1" }

/-- A model trace that answers conversationally, issuing no tool calls. -/
def c3_model : Nat → ModelStep :=
  fun _ => .reply "Happy to help with your tests." []

/-- C3 counterexample: with `job_id` non-null in Turn State, a test-grading
invocation in which `complete_grading_workflow` is never called returns the
fragment entry `"job_id": None`, clearing the persisted job id. -/
theorem C3_counterexample_test_grading_nulls_job_id :
    c3_state.job_id = Option.some "job_1"
    ∧ test_grading_node [] (fun _ => ToolOutcome.ok "") c3_model c3_state
      = .ok ⟨{ next_step := Option.some "END",
               job_id := Option.some Option.none,
               messages := [.ai "Happy to help with your tests." []] },
             1, []⟩ :=
  ⟨rfl, rfl⟩

/-- C3 amended: once `job_id` is non-null, the prepare, validate-names,
scrub, evaluate and email-distribution agents return fragments with no
`job_id` key at all, and the report agent never returns an explicit null
`job_id` (when its completion tool ran, the fragment carries exactly the
string passed to `complete_grading_workflow`); the test-grading agent is the
exception established by the counterexample. -/
theorem C3_amended_job_id_preservation (serverTools : List String)
    (exec : ToolCall → ToolOutcome) (parseStudents : String → Option Int)
    (model : Nat → ModelStep) (state : AgentState) (j : String)
    (hj : state.job_id = Option.some j) :
    fragmentOmitsJobId
      (prepare_essays_node serverTools exec parseStudents model state)
    ∧ fragmentOmitsJobId
      (validate_student_names_node serverTools exec model state)
    ∧ fragmentOmitsJobId (scrub_pii_node serverTools exec model state)
    ∧ fragmentOmitsJobId (evaluate_essays_node serverTools exec model state)
    ∧ fragmentOmitsJobId
      (email_distribution_node serverTools exec model state)
    ∧ fragmentNeverNullsJobId
      (generate_reports_node serverTools exec model state) := by
  refine ⟨?_, ?_, ?_, ?_, ?_, ?_⟩
  · unfold prepare_essays_node
    dsimp only
    split
    · exact rfl
    · split
      · exact rfl
      · split
        · exact rfl
        · exact rfl
  · unfold validate_student_names_node
    dsimp only
    split
    · exact rfl
    · split
      · exact rfl
      · exact rfl
  · unfold scrub_pii_node
    dsimp only
    split
    · exact rfl
    · split
      · exact rfl
      · exact rfl
  · unfold evaluate_essays_node
    dsimp only
    split
    · exact rfl
    · split
      · exact rfl
      · split
        · exact rfl
        · exact rfl
  · unfold email_distribution_node
    dsimp only
    split
    · exact rfl
    · split
      · exact trivial
      · exact rfl
  · unfold generate_reports_node
    dsimp only
    split
    · exact trivial
    · split
      · rename_i hwc
        intro hcontra
        have hs := report_routing_complete_some _ hwc
        have hj' : (report_routing
            (runLoop (get_phase_tools "report" serverTools
              ++ ["complete_grading_workflow"]) exec id model 0 {}
              report_max_iterations).log).job_id = Option.none := by
          exact Option.some.inj hcontra
        rw [hj'] at hs
        exact absurd hs (by decide)
      · intro hcontra
        exact Option.noConfusion hcontra

/-- C3 witness: the amended preservation property at a concrete state with
`job_id = "job_1"` and trivial oracles. -/
theorem C3_amended_job_id_preservation_witness :
    fragmentOmitsJobId
      (prepare_essays_node [] (fun _ => ToolOutcome.ok "")
        (fun _ => Option.none) (fun _ => ModelStep.reply "" [])
        { job_id := Option.some "job_1" })
    ∧ fragmentOmitsJobId
      (validate_student_names_node [] (fun _ => ToolOutcome.ok "")
        (fun _ => ModelStep.reply "" []) { job_id := Option.some "job_1" })
    ∧ fragmentOmitsJobId
      (scrub_pii_node [] (fun _ => ToolOutcome.ok "")
        (fun _ => ModelStep.reply "" []) { job_id := Option.some "job_1" })
    ∧ fragmentOmitsJobId
      (evaluate_essays_node [] (fun _ => ToolOutcome.ok "")
        (fun _ => ModelStep.reply "" []) { job_id := Option.some "job_1" })
    ∧ fragmentOmitsJobId
      (email_distribution_node [] (fun _ => ToolOutcome.ok "")
        (fun _ => ModelStep.reply "" []) { job_id := Option.some "job_1" })
    ∧ fragmentNeverNullsJobId
      (generate_reports_node [] (fun _ => ToolOutcome.ok "")
        (fun _ => ModelStep.reply "" []) { job_id := Option.some "job_1" }) :=
  C3_amended_job_id_preservation [] (fun _ => ToolOutcome.ok "")
    (fun _ => Option.none) (fun _ => ModelStep.reply "" [])
    { job_id := Option.some "job_1" } "job_1" rfl

/-! ## Claim C4 -/

/-- A scrub tool call requested by the model on re-entry. -/
def c4_call : ToolCall :=
  ⟨"scrub_processed_job", [("job_id", PyVal.str "job_1")], "call_1"⟩

/-- A model trace that re-runs the scrub tool before finishing. -/
def c4_model : Nat → ModelStep
  | 0 => .reply "🔒 Removing student names from essays for blind grading..."
      [c4_call]
  | _ => .reply "✓ Privacy scrubbing complete." []

/-- Turn State resuming the scrub phase with `scrubbing_complete` already
true. -/
def c4_state : AgentState :=
  { messages := [.human "resume"], job_id := Option.some "job_1",
    current_phase := Option.some "scrub", scrubbing_complete := true }

/-- C4 counterexample: `scrub_pii_node` has no idempotency guard — invoked
with `scrubbing_complete = true` it still invokes the model and re-executes
the side-effecting `scrub_processed_job` call instead of performing zero
tool calls. -/
theorem C4_counterexample_scrub_reruns_despite_flag :
    c4_state.scrubbing_complete = true
    ∧ executedOf (scrub_pii_node ["scrub_processed_job", "get_job_statistics"]
        (fun _ => ToolOutcome.ok "scrubbed") c4_model c4_state)
      = [(c4_call, "scrubbed")] :=
  ⟨rfl, rfl⟩

/-- C4 amended: the idempotent-reentry guard exists only for the prepare
phase (`ocr_complete`) and the evaluate phase (`evaluation_complete`): with
the flag already true those agents perform zero model and tool calls and
immediately advance to the successor phase; the validate and scrub agents
have no such guard (and the Turn State schema has no `validation_complete`
field at all). -/
theorem C4_amended_idempotent_guards (serverTools : List String)
    (exec : ToolCall → ToolOutcome) (parseStudents : String → Option Int)
    (model : Nat → ModelStep) (state : AgentState) :
    (state.ocr_complete = true →
      prepare_essays_node serverTools exec parseStudents model state
        = .ok ⟨{ next_step := Option.some "validate_student_names",
                 current_phase := Option.some (Option.some "validate"),
                 messages := [] }, 0, []⟩)
    ∧ (state.evaluation_complete = true →
      evaluate_essays_node serverTools exec model state
        = .ok ⟨{ next_step := Option.some "generate_reports",
                 current_phase := Option.some (Option.some "report"),
                 messages := [] }, 0, []⟩) := by
  constructor
  · intro h
    unfold prepare_essays_node
    rw [if_pos h]
  · intro h
    unfold evaluate_essays_node
    rw [if_pos h]

/-- C4 witness: the prepare guard applied at a concrete state with
`ocr_complete = true`. -/
theorem C4_amended_idempotent_guards_witness :
    prepare_essays_node [] (fun _ => ToolOutcome.ok "") (fun _ => Option.none)
      (fun _ => ModelStep.reply "" []) { ocr_complete := true }
      = .ok ⟨{ next_step := Option.some "validate_student_names",
               current_phase := Option.some (Option.some "validate"),
               messages := [] }, 0, []⟩ :=
  (C4_amended_idempotent_guards [] (fun _ => ToolOutcome.ok "")
    (fun _ => Option.none) (fun _ => ModelStep.reply "" [])
    { ocr_complete := true }).1 rfl

/-! ## Claim C5 -/

/-- C5: inside every phase agent's loop, a tool call whose execution raises
yields the conversation entry `Error executing <name>: <message>`, a call
whose name matches no declared tool yields `Tool <name> not found`, and —
since only the model invocation itself can raise — a loop whose model trace
never raises always ends the turn normally. -/
theorem C5_tool_failure_isolation (tools : List String)
    (exec : ToolCall → ToolOutcome) (adjust : ToolCall → ToolCall)
    (model : Nat → ModelStep) (st : LoopState) (tc0 : ToolCall)
    (i b : Nat) :
    (∀ m, tools.contains (adjust tc0).name = true →
      exec (adjust tc0) = ToolOutcome.raise m →
      execOne tools exec adjust st tc0
        = { msgs := st.msgs ++ [.tool ("Error executing " ++ (adjust tc0).name
              ++ ": " ++ m) (adjust tc0).id (adjust tc0).name],
            log := st.log })
    ∧ (tools.contains (adjust tc0).name = false →
      execOne tools exec adjust st tc0
        = { msgs := st.msgs ++ [.tool ("Tool " ++ (adjust tc0).name
              ++ " not found") (adjust tc0).id (adjust tc0).name],
            log := st.log })
    ∧ ((∀ n m, model n ≠ ModelStep.raise m) →
      (runLoop tools exec adjust model i st b).error = Option.none) := by
  refine ⟨?_, ?_, ?_⟩
  · intro m hc hx
    unfold execOne
    rw [if_pos hc, hx]
  · intro hc
    unfold execOne
    have hcc : ¬ (tools.contains (adjust tc0).name = true) := by
      rw [hc]
      exact Bool.false_ne_true
    rw [if_neg hcc]
  · intro hm
    exact runLoop_error_none tools exec adjust model hm b i st

/-- A call for a tool that is not on the prepare allow-list. -/
def c5_call : ToolCall := ⟨"create_job_with_materials", [], "w5"⟩

/-- C5 witness: the unknown-tool branch at a concrete call, and the
no-raise trace ending the scrub-budget loop normally. -/
theorem C5_tool_failure_isolation_witness :
    execOne ["batch_process_documents"] (fun _ => ToolOutcome.ok "") id
      {} c5_call
      = { msgs := ({} : LoopState).msgs
            ++ [.tool ("Tool " ++ (id c5_call).name ++ " not found")
              (id c5_call).id (id c5_call).name],
          log := ({} : LoopState).log }
    ∧ (runLoop ["batch_process_documents"] (fun _ => ToolOutcome.ok "") id
        (fun _ => ModelStep.reply "done" []) 0 {} scrub_max_iterations).error
      = Option.none :=
  ⟨(C5_tool_failure_isolation ["batch_process_documents"]
      (fun _ => ToolOutcome.ok "") id (fun _ => ModelStep.reply "done" [])
      {} c5_call 0 scrub_max_iterations).2.1 rfl,
   (C5_tool_failure_isolation ["batch_process_documents"]
      (fun _ => ToolOutcome.ok "") id (fun _ => ModelStep.reply "done" [])
      {} c5_call 0 scrub_max_iterations).2.2
     (fun _ _ h => ModelStep.noConfusion h)⟩

/-! ## Claim C6 -/

/-- A model trace whose very first invocation raises. -/
def c6_model : Nat → ModelStep :=
  fun _ => ModelStep.raise "APIConnectionError: connection refused"

/-- C6 counterexample: `generate_reports_node` has no `try`/`except`, so a
model-invocation exception escapes the node instead of being returned as a
well-formed error fragment. -/
theorem C6_counterexample_report_node_propagates :
    generate_reports_node [] (fun _ => ToolOutcome.ok "") c6_model
        { messages := [.human "continue"], job_id := Option.some "job_1" }
      = .error "APIConnectionError: connection refused" :=
  rfl

/-- C6 amended: the fragment-on-failure propagation policy holds for the
prepare, validate-names, scrub and evaluate agents (their bodies run inside
`try`/`except` and fall back to an error message in `messages` with
`next_step = "END"`), but not for the gather, report, test-grading and
email-distribution agents, which have no handler. -/
theorem C6_amended_exception_containment (serverTools : List String)
    (exec : ToolCall → ToolOutcome) (parseStudents : String → Option Int)
    (model : Nat → ModelStep) (state : AgentState) :
    returnsFragment
      (prepare_essays_node serverTools exec parseStudents model state)
    ∧ returnsFragment
      (validate_student_names_node serverTools exec model state)
    ∧ returnsFragment (scrub_pii_node serverTools exec model state)
    ∧ returnsFragment (evaluate_essays_node serverTools exec model state)
    ∧ (∀ e, model 0 = ModelStep.raise e → state.ocr_complete = false →
      prepare_essays_node serverTools exec parseStudents model state
        = .ok ⟨{ next_step := Option.some "END",
                 messages := [.ai ("I encountered an error in the prepare phase: "
                   ++ e ++ "\n\nPlease check the logs for more details.") []] },
               1, []⟩) := by
  refine ⟨?_, ?_, ?_, ?_, ?_⟩
  · unfold prepare_essays_node
    dsimp only
    split
    · exact trivial
    · split
      · exact trivial
      · split
        · exact trivial
        · exact trivial
  · unfold validate_student_names_node
    dsimp only
    split
    · exact trivial
    · split
      · exact trivial
      · exact trivial
  · unfold scrub_pii_node
    dsimp only
    split
    · exact trivial
    · split
      · exact trivial
      · exact trivial
  · unfold evaluate_essays_node
    dsimp only
    split
    · exact trivial
    · split
      · exact trivial
      · split
        · exact trivial
        · exact trivial
  · intro e hm hocr
    unfold prepare_essays_node
    rw [if_neg (by simp [hocr])]
    dsimp only
    rw [show prepare_max_iterations = 9 + 1 from rfl, runLoop_succ, hm]

/-- C6 witness: the prepare agent converts a raising model invocation into
an error fragment with terminal `next_step`. -/
theorem C6_amended_exception_containment_witness :
    prepare_essays_node [] (fun _ => ToolOutcome.ok "") (fun _ => Option.none)
      (fun _ => ModelStep.raise "boom") ({} : AgentState)
      = .ok ⟨{ next_step := Option.some "END",
               messages := [.ai ("I encountered an error in the prepare phase: "
                 ++ "boom" ++ "\n\nPlease check the logs for more details.") []] },
             1, []⟩ :=
  (C6_amended_exception_containment [] (fun _ => ToolOutcome.ok "")
    (fun _ => Option.none) (fun _ => ModelStep.raise "boom")
    ({} : AgentState)).2.2.2.2 "boom" rfl rfl

/-! ## Claim C7 -/

/-- C7: invoked with `job_id = None`, the email-distribution agent
short-circuits to a fragment whose `next_step` is the terminal `"END"` and
whose messages carry the user-facing explanation, having performed zero
model invocations and zero tool calls. -/
theorem C7_email_requires_job_id (serverTools : List String)
    (exec : ToolCall → ToolOutcome) (model : Nat → ModelStep)
    (state : AgentState) (h : state.job_id = Option.none) :
    email_distribution_node serverTools exec model state
      = .ok ⟨{ next_step := Option.some "END",
               messages := [.ai email_missing_job_text []] }, 0, []⟩ := by
  unfold email_distribution_node
  rw [h]
  rfl

/-- C7 witness: the short-circuit at the empty Turn State. -/
theorem C7_email_requires_job_id_witness :
    email_distribution_node [] (fun _ => ToolOutcome.ok "")
      (fun _ => ModelStep.reply "" []) ({} : AgentState)
      = .ok ⟨{ next_step := Option.some "END",
               messages := [.ai email_missing_job_text []] }, 0, []⟩ :=
  C7_email_requires_job_id [] (fun _ => ToolOutcome.ok "")
    (fun _ => ModelStep.reply "" []) ({} : AgentState) rfl

/-! ## Claim C8 -/

/-- C8: whatever tools the MCP server exposes, `create_job_with_materials`
never passes the prepare phase's allow-list filter, so inside
`prepare_essays_node` a model request for it produces the textual
`Tool create_job_with_materials not found` result, and no executed call of
the invocation bears that name. -/
theorem C8_prepare_excludes_job_creation (serverTools : List String)
    (exec : ToolCall → ToolOutcome) (parseStudents : String → Option Int)
    (model : Nat → ModelStep) (state : AgentState) (j : String)
    (hj : state.job_id = Option.some j) :
    "create_job_with_materials" ∉ prepareTools serverTools
    ∧ (∀ (st : LoopState) (args : List (String × PyVal)) (cid : String),
      execOne (prepareTools serverTools) exec id st
          ⟨"create_job_with_materials", args, cid⟩
        = { msgs := st.msgs ++ [.tool "Tool create_job_with_materials not found"
              cid "create_job_with_materials"],
            log := st.log })
    ∧ (∀ e ∈ executedOf
        (prepare_essays_node serverTools exec parseStudents model state),
      e.1.name ≠ "create_job_with_materials") := by
  have hnm := create_job_not_in_prepareTools serverTools
  have hcf : (prepareTools serverTools).contains "create_job_with_materials"
      = false := contains_eq_false_of_not_mem hnm
  refine ⟨hnm, ?_, ?_⟩
  · intro st args cid
    unfold execOne
    have hcc : ¬ ((prepareTools serverTools).contains
        (id (⟨"create_job_with_materials", args, cid⟩ : ToolCall)).name = true) := by
      rw [show (id (⟨"create_job_with_materials", args, cid⟩ : ToolCall)).name
          = "create_job_with_materials" from rfl, hcf]
      exact Bool.false_ne_true
    rw [if_neg hcc]
    exact rfl
  · intro e he hname
    have hlog : e ∈ (runLoop (prepareTools serverTools) exec id model 0 {}
        prepare_max_iterations).log := by
      unfold prepare_essays_node at he
      by_cases hocr : state.ocr_complete = true
      · rw [if_pos hocr] at he
        exact absurd he (List.not_mem_nil e)
      · rw [if_neg hocr] at he
        dsimp only at he
        rcases hr : (runLoop (prepareTools serverTools) exec id model 0 {}
            prepare_max_iterations).error with _ | err
        · rw [hr] at he
          dsimp only at he
          by_cases hps : (List.foldl (prepFold parseStudents) {}
              (runLoop (prepareTools serverTools) exec id model 0 {}
                prepare_max_iterations).log).ocr_complete = true
          · rw [if_pos hps] at he
            exact he
          · rw [if_neg hps] at he
            exact he
        · rw [hr] at he
          exact he
    rcases runLoop_log_mem (prepareTools serverTools) exec id model
        prepare_max_iterations 0 {} e hlog with h | ⟨tc0, htc, hct⟩
    · exact absurd h (List.not_mem_nil e)
    · rw [htc] at hname
      rw [show (id tc0).name = tc0.name from rfl] at hname
      rw [show (id tc0).name = tc0.name from rfl, hname] at hct
      rw [hcf] at hct
      exact Bool.noConfusion hct

/-- C8 witness: the allow-list exclusion and the not-found reply at a
concrete server tool list and call. -/
theorem C8_prepare_excludes_job_creation_witness :
    "create_job_with_materials" ∉ prepareTools ["batch_process_documents"]
    ∧ execOne (prepareTools ["batch_process_documents"])
        (fun _ => ToolOutcome.ok "") id {}
        ⟨"create_job_with_materials", [], "w8"⟩
      = { msgs := ({} : LoopState).msgs
            ++ [.tool "Tool create_job_with_materials not found" "w8"
              "create_job_with_materials"],
          log := ({} : LoopState).log } :=
  ⟨(C8_prepare_excludes_job_creation ["batch_process_documents"]
      (fun _ => ToolOutcome.ok "") (fun _ => Option.none)
      (fun _ => ModelStep.reply "" []) { job_id := Option.some "job_1" }
      "job_1" rfl).1,
   (C8_prepare_excludes_job_creation ["batch_process_documents"]
      (fun _ => ToolOutcome.ok "") (fun _ => Option.none)
      (fun _ => ModelStep.reply "" []) { job_id := Option.some "job_1" }
      "job_1" rfl).2.1 {} [] "w8"⟩

/-! ## Claim C9 -/

/-- All nine `max_iterations` constants of nodes.py. -/
def all_max_iterations : List Nat :=
  [gather_max_iterations, prepare_max_iterations, inspect_max_iterations,
   validate_max_iterations, scrub_max_iterations, evaluate_max_iterations,
   report_max_iterations, test_grading_max_iterations, email_max_iterations]

/-- C9 counterexample: the email-distribution loop budget is 30, outside
the claimed 5–20 range. -/
theorem C9_counterexample_email_budget :
    email_max_iterations = 30 ∧ ¬(email_max_iterations ≤ 20) := by
  exact ⟨rfl, by decide⟩

/-- C9 amended: every phase loop budget lies between 5 and 30 inclusive,
the human-correction-dialog phases carry the largest budgets (validation 20,
email distribution 30, the maximum), every loop performs at most its
budget's model invocations, and when the model trace never raises the loop
ends the turn normally. -/
theorem C9_amended_budgets_and_termination (tools : List String)
    (exec : ToolCall → ToolOutcome) (adjust : ToolCall → ToolCall)
    (model : Nat → ModelStep) (i b : Nat) (st : LoopState) :
    (∀ x ∈ all_max_iterations, 5 ≤ x ∧ x ≤ 30)
    ∧ (∀ x ∈ all_max_iterations, x ≤ email_max_iterations)
    ∧ validate_max_iterations = 20
    ∧ email_max_iterations = 30
    ∧ (runLoop tools exec adjust model i st b).model_calls ≤ b
    ∧ ((∀ n m, model n ≠ ModelStep.raise m) →
      (runLoop tools exec adjust model i st b).error = Option.none) := by
  refine ⟨by decide, by decide, rfl, rfl, ?_, ?_⟩
  · exact runLoop_model_calls_le tools exec adjust model b i st
  · intro hm
    exact runLoop_error_none tools exec adjust model hm b i st

/-- C9 witness: the budget and termination facts at the email loop's own
budget with a never-raising trace. -/
theorem C9_amended_budgets_and_termination_witness :
    (runLoop [] (fun _ => ToolOutcome.ok "") id
      (fun _ => ModelStep.reply "" []) 0 {} email_max_iterations).model_calls
      ≤ email_max_iterations
    ∧ (runLoop [] (fun _ => ToolOutcome.ok "") id
      (fun _ => ModelStep.reply "" []) 0 {} email_max_iterations).error
      = Option.none :=
  ⟨(C9_amended_budgets_and_termination [] (fun _ => ToolOutcome.ok "") id
      (fun _ => ModelStep.reply "" []) 0 email_max_iterations {}).2.2.2.2.1,
   (C9_amended_budgets_and_termination [] (fun _ => ToolOutcome.ok "") id
      (fun _ => ModelStep.reply "" []) 0 email_max_iterations {}).2.2.2.2.2
     (fun _ _ h => ModelStep.noConfusion h)⟩

/-! ## Claim C10 -/

/-- C10: in the email-distribution agent, a model-issued call whose
arguments omit `job_id` or pass it as `None` or `""` is invoked with the
Turn State's `job_id` substituted in; consequently every call the agent
actually executes carries a `job_id` argument. -/
theorem C10_email_job_id_injection (state : AgentState) (j : String)
    (tc : ToolCall) (hj : state.job_id = Option.some j)
    (hmiss : lookupArg tc.args "job_id" = Option.none
      ∨ lookupArg tc.args "job_id" = Option.some PyVal.none
      ∨ lookupArg tc.args "job_id" = Option.some (PyVal.str "")) :
    lookupArg (emailAdjust state.job_id tc).args "job_id"
      = Option.some (PyVal.str j)
    ∧ (∀ (serverTools : List String) (exec : ToolCall → ToolOutcome)
        (model : Nat → ModelStep) (e : ToolCall × String),
      e ∈ executedOf (email_distribution_node serverTools exec model state) →
      (lookupArg e.1.args "job_id").isSome = true) := by
  constructor
  · rw [hj]
    exact injectJobId_missing (Option.some j) tc.args hmiss
  · intro serverTools exec model e he
    have hlog : e ∈ (runLoop (get_email_tools serverTools) exec
        (emailAdjust state.job_id) model 0 {} email_max_iterations).log := by
      unfold email_distribution_node at he
      by_cases hmissing : (!pyTruthyOptStr state.job_id) = true
      · rw [if_pos hmissing] at he
        exact absurd he (List.not_mem_nil e)
      · rw [if_neg hmissing] at he
        dsimp only at he
        rcases hr : (runLoop (get_email_tools serverTools) exec
            (emailAdjust state.job_id) model 0 {} email_max_iterations).error
            with _ | err
        · rw [hr] at he
          exact he
        · rw [hr] at he
          exact absurd he (List.not_mem_nil e)
    rcases runLoop_log_mem (get_email_tools serverTools) exec
        (emailAdjust state.job_id) model email_max_iterations 0 {} e hlog
        with h | ⟨tc0, htc, _⟩
    · exact absurd h (List.not_mem_nil e)
    · rw [htc]
      exact injectJobId_isSome state.job_id tc0.args

/-- A send-emails call with no `job_id` argument. -/
def c10_call : ToolCall := ⟨"send_student_feedback_emails", [], "w10"⟩

/-- C10 witness: injection at a concrete state and a call omitting
`job_id`. -/
theorem C10_email_job_id_injection_witness :
    lookupArg (emailAdjust ({ job_id := Option.some "job_1" }
        : AgentState).job_id c10_call).args "job_id"
      = Option.some (PyVal.str "job_1") :=
  (C10_email_job_id_injection { job_id := Option.some "job_1" } "job_1"
    c10_call rfl (Or.inl rfl)).1

end EdAgent
